import Mathlib

/-!
Verification of the Feedback Analysis & Aggregation Engine of the
Hospitality feedback platform, together with the frontend API utilities
(`src/frontend/src/services/api.js`).

The repository snapshot contains only the React frontend and the README;
the backend pipeline (Sentiment Scorer, Topic Extractor, Flagging &
Priority Engine, Feedback Analyzer, Analytics Aggregator, Alert Queue
View) is specified in `spec.md` but its Python source is not present.
Those components are therefore modelled from the spec, as flagged on
each definition; the frontend utilities are translated directly from
`api.js`.

Sentiment scores are modelled as rationals (`Rat`): the spec's contract
is on threshold semantics and an explicit numeric tolerance, not on any
particular floating-point representation.
-/

namespace Hosp

/-- Sentiment label bucket: `positive | neutral | negative` (spec §3). -/
inductive SentimentLabel
  | positive
  | neutral
  | negative
deriving DecidableEq, Repr

/-- Priority tier: `normal | high | urgent` (spec §3). -/
inductive Priority
  | normal
  | high
  | urgent
deriving DecidableEq, Repr

/-- Workflow status: `new | reviewed | resolved | escalated` (spec §3). -/
inductive Status
  | new
  | reviewed
  | resolved
  | escalated
deriving DecidableEq, Repr

/-- Modelled from the spec: configuration consumed by the core (§6):
label thresholds, alert threshold, flagged keywords, topic limits.
The concrete Python config-loading code is not in the snapshot. -/
structure Config where
  neg_t : Rat
  pos_t : Rat
  alert_threshold_sentiment : Rat
  flagged_keywords : List String
  max_topics : Nat
  top_k_topics : Nat

/-- Default configuration values from spec §4.1–§4.5 and the README's
environment variables (`SENTIMENT_THRESHOLD_NEGATIVE=-0.5`, etc.). -/
def defaultConfig : Config :=
  { neg_t := -(1/2 : Rat)
    pos_t := (1/2 : Rat)
    alert_threshold_sentiment := -(7/10 : Rat)
    flagged_keywords := ["urgent", "emergency", "terrible", "awful", "disgusting", "worst"]
    max_topics := 5
    top_k_topics := 10 }

/-- Character-list substring test: `containsSub t k` is true iff `k`
occurs contiguously inside `t`. Used to model the case-insensitive
keyword substring match of spec §4.3. Text is handled as `List Char`
throughout the modelled core. -/
def containsSub : List Char → List Char → Bool
  | t, k =>
    match t with
    | [] => k.isEmpty
    | _ :: rest => k.isPrefixOf t || containsSub rest k

/-- Whitespace trimming on character lists (the spec's "trimmed text"). -/
def trimChars (l : List Char) : List Char :=
  ((l.dropWhile Char.isWhitespace).reverse.dropWhile Char.isWhitespace).reverse

/-- Lowercase normalization applied before keyword matching (§4.3):
keyword matching is case-insensitive. -/
def toLowerChars (l : List Char) : List Char := l.map Char.toLower

/-- Modelled from the spec (§4.3): the `low_score` trigger of the
Flagging & Priority Engine: score is present and at most the alert
threshold; an absent score forces the trigger to false. -/
def lowScore (cfg : Config) (score : Option Rat) : Bool :=
  match score with
  | some s => decide (s ≤ cfg.alert_threshold_sentiment)
  | none => false

/-- Modelled from the spec (§4.3): the `keyword_hit` trigger: some
configured keyword appears as a substring of the normalized text. -/
def keywordHit (cfg : Config) (text : List Char) : Bool :=
  cfg.flagged_keywords.any (fun k => containsSub text k.data)

/-- Modelled from the spec (§4.3): priority is `urgent` if both
triggers fire, `high` if exactly one fires, `normal` if neither. -/
def priorityOf (cfg : Config) (score : Option Rat) (text : List Char) : Priority :=
  match lowScore cfg score, keywordHit cfg text with
  | true, true => .urgent
  | true, false => .high
  | false, true => .high
  | false, false => .normal

/-- Modelled from the spec (§4.3): derived invariant
`flagged = (priority != normal)`. -/
def flaggedOf (cfg : Config) (score : Option Rat) (text : List Char) : Bool :=
  decide (priorityOf cfg score text ≠ .normal)

/-- Modelled from the spec (§4.1): label derivation owned by the
Feedback Analyzer: negative if `score ≤ neg_t`, positive if
`score ≥ pos_t`, else neutral. -/
def labelOf (cfg : Config) (s : Rat) : SentimentLabel :=
  if s ≤ cfg.neg_t then .negative
  else if cfg.pos_t ≤ s then .positive
  else .neutral

end Hosp

namespace Hosp

/-- C2 case analysis helper: everything about `priorityOf` follows by
cases on the two boolean triggers. -/
theorem priorityOf_eq (cfg : Config) (score : Option Rat) (text : List Char) :
    priorityOf cfg score text =
      match lowScore cfg score, keywordHit cfg text with
      | true, true => Priority.urgent
      | true, false => Priority.high
      | false, true => Priority.high
      | false, false => Priority.normal := rfl

/-- C2: the Flagging & Priority Engine computes `urgent` exactly when
both triggers fire, `high` exactly when exactly one fires, `normal`
exactly when neither fires; and `flagged` holds iff the priority is not
`normal`, equivalently iff `low_score` or `keyword_hit` fires. -/
theorem flagging_engine_correct (cfg : Config) (score : Option Rat) (text : List Char) :
    (priorityOf cfg score text = .urgent ↔
      (lowScore cfg score = true ∧ keywordHit cfg text = true)) ∧
    (priorityOf cfg score text = .high ↔
      ((lowScore cfg score = true) ≠ (keywordHit cfg text = true))) ∧
    (priorityOf cfg score text = .normal ↔
      (lowScore cfg score = false ∧ keywordHit cfg text = false)) ∧
    (flaggedOf cfg score text = true ↔ priorityOf cfg score text ≠ .normal) ∧
    (flaggedOf cfg score text = true ↔
      (lowScore cfg score = true ∨ keywordHit cfg text = true)) := by
  unfold flaggedOf priorityOf
  cases hl : lowScore cfg score <;> cases hk : keywordHit cfg text <;>
    simp_all

/-- C3: with sensible thresholds (`neg_t < pos_t`, as in every default
configuration), the sentiment label is negative iff `score ≤ neg_t`,
positive iff `score ≥ pos_t`, and neutral iff the score lies strictly
between; being a Lean function, `labelOf` is deterministic in the score
and the two thresholds. -/
theorem label_threshold_rule (cfg : Config) (s : Rat) (h : cfg.neg_t < cfg.pos_t) :
    (labelOf cfg s = .negative ↔ s ≤ cfg.neg_t) ∧
    (labelOf cfg s = .positive ↔ cfg.pos_t ≤ s) ∧
    (labelOf cfg s = .neutral ↔ (cfg.neg_t < s ∧ s < cfg.pos_t)) := by
  unfold labelOf
  split_ifs with h1 h2
  · exact ⟨iff_of_true rfl h1,
      iff_of_false (fun hc => nomatch hc) (not_le.mpr (lt_of_le_of_lt h1 h)),
      iff_of_false (fun hc => nomatch hc) (fun hc => absurd h1 (not_le.mpr hc.1))⟩
  · exact ⟨iff_of_false (fun hc => nomatch hc) h1,
      iff_of_true rfl h2,
      iff_of_false (fun hc => nomatch hc) (fun hc => absurd h2 (not_le.mpr hc.2))⟩
  · exact ⟨iff_of_false (fun hc => nomatch hc) h1,
      iff_of_false (fun hc => nomatch hc) h2,
      iff_of_true rfl ⟨not_le.mp h1, not_le.mp h2⟩⟩

/-- Witness for C3: at the default thresholds (-1/2 < 1/2) and score 0,
the rule classifies the record as neutral. -/
theorem label_threshold_rule_witness :
    labelOf defaultConfig 0 = .neutral :=
  ((label_threshold_rule defaultConfig 0 (by norm_num [defaultConfig])).2.2).mpr
    (by norm_num [defaultConfig])

end Hosp

namespace Hosp

/-- Modelled from the spec (§6): the ingestion input consumed by the
Feedback Analyzer. -/
structure Submission where
  text : String
  channel : String
  guest_name : Option String
  location : Option String
  booking_reference : Option String
deriving DecidableEq

/-- Modelled from the spec (§4.1): outcome of one Scorer invocation —
either a score or the ScoringUnavailable condition. -/
inductive ScorerResult
  | ok (score : Rat)
  | scoringUnavailable
deriving DecidableEq

/-- Modelled from the spec (§4.2): outcome of one Extractor invocation —
either a ranked topic list or the ExtractionUnavailable condition. -/
inductive ExtractorResult
  | ok (topics : List (String × Rat))
  | extractionUnavailable
deriving DecidableEq

/-- The recognized channels (spec §3). -/
def recognizedChannels : List String :=
  ["web", "email", "whatsapp", "google_reviews", "other"]

/-- Modelled from the spec (§4.4): input validation — non-empty trimmed
text within the 5000-character length bound and a recognized channel. -/
def validSubmission (sub : Submission) : Bool :=
  decide (trimChars sub.text.data ≠ []) &&
    decide ((trimChars sub.text.data).length ≤ 5000) &&
    recognizedChannels.contains sub.channel

/-- The normalized lowercase text handed to the Flagging Engine (§4.3). -/
def normalizedText (sub : Submission) : List Char :=
  toLowerChars (trimChars sub.text.data)

/-- Analyzed feedback record (spec §3); `created_at` is an abstract
timestamp supplied at assembly time. -/
structure FeedbackRecord where
  text : String
  channel : String
  guest_name : Option String
  location : Option String
  booking_reference : Option String
  created_at : Nat
  sentiment : Option Rat
  sentiment_label : Option SentimentLabel
  topics : List (String × Rat)
  flagged : Bool
  priority : Priority
  status : Status
deriving DecidableEq

/-- The only error the Analyzer itself raises (spec §7): degraded model
backends are recovered locally and never abort ingestion. -/
inductive AnalyzeError
  | validationError
deriving DecidableEq

/-- Modelled from the spec (§4.4): the Feedback Analyzer. The Scorer and
Extractor are external capabilities; their outcomes for this call are
passed in explicitly so the analyzer itself is a pure function. -/
def analyze (cfg : Config) (sub : Submission) (sc : ScorerResult)
    (ex : ExtractorResult) (now : Nat) : Except AnalyzeError FeedbackRecord :=
  if validSubmission sub then
    let score : Option Rat :=
      match sc with
      | .ok s => some s
      | .scoringUnavailable => none
    let tps : List (String × Rat) :=
      match ex with
      | .ok ts => ts
      | .extractionUnavailable => []
    let ntext := normalizedText sub
    .ok { text := sub.text
          channel := sub.channel
          guest_name := sub.guest_name
          location := sub.location
          booking_reference := sub.booking_reference
          created_at := now
          sentiment := score
          sentiment_label := score.map (labelOf cfg)
          topics := tps
          flagged := flaggedOf cfg score ntext
          priority := priorityOf cfg score ntext
          status := .new }
  else
    .error .validationError

/-- C8: a submission failing validation (empty trimmed text, trimmed
text longer than 5000 characters, or unrecognized channel) is rejected
with a ValidationError, and the rejection is independent of the Scorer
and Extractor outcomes, the configuration and the timestamp (so no
model call or persistence can have influenced it); a submission that
passes validation is never rejected. -/
theorem validation_gate (cfg cfg' : Config) (sub : Submission)
    (sc sc' : ScorerResult) (ex ex' : ExtractorResult) (now now' : Nat) :
    (validSubmission sub = false →
      analyze cfg sub sc ex now = .error .validationError ∧
      analyze cfg sub sc ex now = analyze cfg' sub sc' ex' now') ∧
    (validSubmission sub = true →
      ∃ r, analyze cfg sub sc ex now = .ok r) ∧
    (validSubmission sub = true ↔
      (trimChars sub.text.data ≠ [] ∧ (trimChars sub.text.data).length ≤ 5000 ∧
        sub.channel ∈ recognizedChannels)) := by
  refine ⟨fun hv => ?_, fun hv => ?_, ?_⟩
  · constructor <;> simp [analyze, hv]
  · simp [analyze, hv]
  · simp [validSubmission, List.contains, List.elem_iff, and_assoc]

/-- A concrete valid submission used by witnesses. -/
def demoSub : Submission :=
  { text := "The room was terrible"
    channel := "web"
    guest_name := none
    location := none
    booking_reference := none }

/-- Witness for C8 at a concrete valid submission. -/
theorem validation_gate_witness :
    ∃ r, analyze defaultConfig demoSub .scoringUnavailable (.ok []) 0 = .ok r :=
  (validation_gate defaultConfig defaultConfig demoSub .scoringUnavailable
      .scoringUnavailable (.ok []) (.ok []) 0 0).2.1 (by decide)

/-- C4: when the Scorer fails but the Extractor succeeds, analysis of a
valid submission still completes: the record has absent score and label,
carries the Extractor topics, and its flag/priority are determined by
the keyword trigger alone (an absent score forces `low_score = false`);
moreover the engine run on an absent score agrees with the engine run on
any present score whose `low_score` trigger is false, i.e. the engine
behaves identically whether or not a score is present. -/
theorem degraded_scoring (cfg : Config) (sub : Submission)
    (ts : List (String × Rat)) (now : Nat) (hv : validSubmission sub = true) :
    ∃ r, analyze cfg sub .scoringUnavailable (.ok ts) now = .ok r ∧
      r.sentiment = none ∧
      r.sentiment_label = none ∧
      r.topics = ts ∧
      lowScore cfg (none : Option Rat) = false ∧
      r.flagged = keywordHit cfg (normalizedText sub) ∧
      r.priority = (if keywordHit cfg (normalizedText sub)
        then Priority.high else Priority.normal) ∧
      (∀ s : Rat, lowScore cfg (some s) = false →
        priorityOf cfg (some s) (normalizedText sub) =
          priorityOf cfg none (normalizedText sub)) := by
  refine ⟨{ text := sub.text
            channel := sub.channel
            guest_name := sub.guest_name
            location := sub.location
            booking_reference := sub.booking_reference
            created_at := now
            sentiment := none
            sentiment_label := none
            topics := ts
            flagged := flaggedOf cfg none (normalizedText sub)
            priority := priorityOf cfg none (normalizedText sub)
            status := .new },
    by simp [analyze, hv], rfl, rfl, rfl, rfl, ?_, ?_, ?_⟩
  · cases hk : keywordHit cfg (normalizedText sub) <;>
      simp [flaggedOf, priorityOf, lowScore, hk]
  · cases hk : keywordHit cfg (normalizedText sub) <;>
      simp [priorityOf, lowScore, hk]
  · intro s hs
    simp only [lowScore] at hs
    cases hk : keywordHit cfg (normalizedText sub) <;>
      simp [priorityOf, lowScore, hs, hk]

/-- Witness for C4: the demo submission with a degraded Scorer and one
extracted topic. -/
theorem degraded_scoring_witness :
    ∃ r, analyze defaultConfig demoSub .scoringUnavailable
        (.ok [("room", (9/10 : Rat))]) 0 = .ok r ∧
      r.sentiment = none ∧
      r.sentiment_label = none ∧
      r.topics = [("room", (9/10 : Rat))] ∧
      lowScore defaultConfig (none : Option Rat) = false ∧
      r.flagged = keywordHit defaultConfig (normalizedText demoSub) ∧
      r.priority = (if keywordHit defaultConfig (normalizedText demoSub)
        then Priority.high else Priority.normal) ∧
      (∀ s : Rat, lowScore defaultConfig (some s) = false →
        priorityOf defaultConfig (some s) (normalizedText demoSub) =
          priorityOf defaultConfig none (normalizedText demoSub)) :=
  degraded_scoring defaultConfig demoSub [("room", (9/10 : Rat))] 0 (by decide)

end Hosp

namespace Hosp

/-- Modelled from the spec (§4.5): the aggregate accumulators backing an
AnalyticsSummary — total, per-label counts, sentiment sum and count,
per-topic count/sentiment-sum, flagged count. -/
structure Accumulators where
  total : Nat
  positive_count : Nat
  neutral_count : Nat
  negative_count : Nat
  sentiment_sum : Rat
  sentiment_count : Nat
  topic_acc : List (String × Nat × Rat)
  flagged_count : Nat
deriving DecidableEq

/-- The accumulators of an empty record set. -/
def emptyAcc : Accumulators :=
  { total := 0
    positive_count := 0
    neutral_count := 0
    negative_count := 0
    sentiment_sum := 0
    sentiment_count := 0
    topic_acc := []
    flagged_count := 0 }

/-- Add one occurrence of topic `t` with sentiment contribution `s` to
the per-topic accumulator (count + 1, sentiment-sum + s). -/
def addTopic (acc : List (String × Nat × Rat)) (t : String) (s : Rat) :
    List (String × Nat × Rat) :=
  match acc with
  | [] => [(t, 1, s)]
  | (t', c, ss) :: rest =>
    if t' = t then (t', c + 1, ss + s) :: rest
    else (t', c, ss) :: addTopic rest t s

/-- Accumulate every topic attached to one record (§4.5: across every
topic of every record, regardless of the record's own status). -/
def addRecordTopics (acc : List (String × Nat × Rat))
    (topics : List (String × Rat)) (s : Rat) : List (String × Nat × Rat) :=
  topics.foldl (fun a tp => addTopic a tp.1 s) acc

/-- Modelled from the spec (§4.5): fold one analyzed record into the
accumulators — increment total; bucket by label (absent label counts
only toward total); add present score to sum and count; accumulate
topics; increment flagged count. -/
def stepRecord (acc : Accumulators) (r : FeedbackRecord) : Accumulators :=
  { total := acc.total + 1
    positive_count :=
      acc.positive_count + (if r.sentiment_label = some .positive then 1 else 0)
    neutral_count :=
      acc.neutral_count + (if r.sentiment_label = some .neutral then 1 else 0)
    negative_count :=
      acc.negative_count + (if r.sentiment_label = some .negative then 1 else 0)
    sentiment_sum := acc.sentiment_sum + r.sentiment.getD 0
    sentiment_count := acc.sentiment_count + (if r.sentiment.isSome then 1 else 0)
    topic_acc := addRecordTopics acc.topic_acc r.topics (r.sentiment.getD 0)
    flagged_count := acc.flagged_count + (if r.flagged then 1 else 0) }

/-- Modelled from the spec (§4.5): full recompute — a single pass over
the record collection. -/
def recompute (records : List FeedbackRecord) : Accumulators :=
  records.foldl stepRecord emptyAcc

/-- Modelled from the spec (§4.5): incremental update — fold one newly
analyzed record into existing accumulators, O(1) in the record count. -/
def incremental_update (acc : Accumulators) (r : FeedbackRecord) : Accumulators :=
  stepRecord acc r

/-- One entry of the derived top-topics list (§3). -/
structure TopicEntry where
  topic : String
  count : Nat
  average_sentiment : Rat
deriving DecidableEq

/-- The sort order on topic accumulator entries (§4.5): count
descending, ties broken by ascending lexicographic label. -/
def topicLE (a b : String × Nat × Rat) : Bool :=
  decide (b.2.1 < a.2.1 ∨ (a.2.1 = b.2.1 ∧ a.1 ≤ b.1))

/-- Modelled from the spec (§4.5): derive top topics from the topic
accumulator — sort by count desc / label asc, truncate to `top_k`, and
compute each entry's average as sentiment-sum / count. -/
def topTopics (cfg : Config) (acc : Accumulators) : List TopicEntry :=
  ((acc.topic_acc.mergeSort topicLE).take cfg.top_k_topics).map
    (fun e => { topic := e.1, count := e.2.1,
                average_sentiment := e.2.2 / (e.2.1 : Rat) })

/-- The AnalyticsSummary snapshot (§3): totals, sentiment distribution,
average sentiment, top topics, flagged count. -/
structure AnalyticsSummary where
  total_feedback : Nat
  positive : Nat
  neutral : Nat
  negative : Nat
  average_sentiment : Rat
  top_topics : List TopicEntry
  flagged_count : Nat
deriving DecidableEq

/-- Modelled from the spec (§4.5): derive the summary from accumulators;
average sentiment is 0 when no record has a present score. -/
def deriveSummary (cfg : Config) (acc : Accumulators) : AnalyticsSummary :=
  { total_feedback := acc.total
    positive := acc.positive_count
    neutral := acc.neutral_count
    negative := acc.negative_count
    average_sentiment :=
      if acc.sentiment_count = 0 then 0
      else acc.sentiment_sum / (acc.sentiment_count : Rat)
    top_topics := topTopics cfg acc
    flagged_count := acc.flagged_count }

/-- The spec's numeric tolerance ε = 1e-9 (§4.5, §8). -/
def eps : Rat := 1 / 1000000000

end Hosp

namespace Hosp

/-- The decisive compositionality fact: a full recompute over `S` with
`R` appended is exactly one incremental step applied to the recompute
over `S`. -/
theorem recompute_append_singleton (S : List FeedbackRecord) (R : FeedbackRecord) :
    recompute (S ++ [R]) = incremental_update (recompute S) R := by
  simp [recompute, incremental_update]

/-- C1: applying the Aggregator's incremental update for a new record
`R` to the result of a full recompute over `S` yields the same summary
as a full recompute over `S` with `R` added: the accumulators agree
exactly, hence every count (total, per-label, flagged), the top-topics
list, and the sentiment sum agree exactly, and sums/averages agree
within the tolerance ε = 1e-9. -/
theorem aggregator_incremental_agrees (cfg : Config)
    (S : List FeedbackRecord) (R : FeedbackRecord) :
    incremental_update (recompute S) R = recompute (S ++ [R]) ∧
    (deriveSummary cfg (incremental_update (recompute S) R)).total_feedback =
      (deriveSummary cfg (recompute (S ++ [R]))).total_feedback ∧
    (deriveSummary cfg (incremental_update (recompute S) R)).positive =
      (deriveSummary cfg (recompute (S ++ [R]))).positive ∧
    (deriveSummary cfg (incremental_update (recompute S) R)).neutral =
      (deriveSummary cfg (recompute (S ++ [R]))).neutral ∧
    (deriveSummary cfg (incremental_update (recompute S) R)).negative =
      (deriveSummary cfg (recompute (S ++ [R]))).negative ∧
    (deriveSummary cfg (incremental_update (recompute S) R)).flagged_count =
      (deriveSummary cfg (recompute (S ++ [R]))).flagged_count ∧
    (deriveSummary cfg (incremental_update (recompute S) R)).top_topics =
      (deriveSummary cfg (recompute (S ++ [R]))).top_topics ∧
    |(incremental_update (recompute S) R).sentiment_sum -
      (recompute (S ++ [R])).sentiment_sum| ≤ eps ∧
    |(deriveSummary cfg (incremental_update (recompute S) R)).average_sentiment -
      (deriveSummary cfg (recompute (S ++ [R]))).average_sentiment| ≤ eps := by
  have h := recompute_append_singleton S R
  rw [h]
  refine ⟨rfl, rfl, rfl, rfl, rfl, rfl, rfl, ?_, ?_⟩ <;>
    simp [sub_self, abs_zero, eps]

/-- Folding records over any starting accumulators adds the list length
to `total`. -/
theorem foldl_step_total (S : List FeedbackRecord) (a : Accumulators) :
    (S.foldl stepRecord a).total = a.total + S.length := by
  induction S generalizing a with
  | nil => simp
  | cons r S ih =>
    simp only [List.foldl_cons, ih, List.length_cons, stepRecord]
    omega

/-- Folding records adds the number of present scores to
`sentiment_count`. -/
theorem foldl_step_sentiment_count (S : List FeedbackRecord) (a : Accumulators) :
    (S.foldl stepRecord a).sentiment_count =
      a.sentiment_count + S.countP (fun r => r.sentiment.isSome) := by
  induction S generalizing a with
  | nil => simp
  | cons r S ih =>
    simp only [List.foldl_cons, ih, List.countP_cons, stepRecord]
    by_cases hr : r.sentiment.isSome <;> simp [hr]
    all_goals omega

/-- Folding records adds the number of flagged records to
`flagged_count`. -/
theorem foldl_step_flagged_count (S : List FeedbackRecord) (a : Accumulators) :
    (S.foldl stepRecord a).flagged_count =
      a.flagged_count + S.countP (fun r => r.flagged) := by
  induction S generalizing a with
  | nil => simp
  | cons r S ih =>
    simp only [List.foldl_cons, ih, List.countP_cons, stepRecord]
    by_cases hr : r.flagged <;> simp [hr]
    all_goals omega

/-- C5: on the empty record set the derived summary has total 0,
average sentiment 0, empty top-topics and flagged count 0; and more
generally, whenever no record in scope carries a present score, the
average sentiment is 0 (no division by zero ever occurs — the
divisor-zero case is defined to be 0). -/
theorem empty_recompute_safe (cfg : Config) :
    (deriveSummary cfg (recompute [])).total_feedback = 0 ∧
    (deriveSummary cfg (recompute [])).average_sentiment = 0 ∧
    (deriveSummary cfg (recompute [])).top_topics = [] ∧
    (deriveSummary cfg (recompute [])).flagged_count = 0 ∧
    (∀ S : List FeedbackRecord, (∀ r ∈ S, r.sentiment = none) →
      (deriveSummary cfg (recompute S)).average_sentiment = 0) := by
  refine ⟨rfl, rfl, ?_, rfl, ?_⟩
  · simp [deriveSummary, recompute, emptyAcc, topTopics]
  · intro S hS
    have hc : (recompute S).sentiment_count = 0 := by
      rw [recompute, foldl_step_sentiment_count]
      simp only [emptyAcc, Nat.zero_add]
      rw [List.countP_eq_zero]
      intro r hr
      simp [hS r hr]
    simp [deriveSummary, hc]

/-- A concrete record with an absent score, used by witnesses. -/
def demoRecord : FeedbackRecord :=
  { text := "ok"
    channel := "web"
    guest_name := none
    location := none
    booking_reference := none
    created_at := 0
    sentiment := none
    sentiment_label := none
    topics := [("room", (1 : Rat))]
    flagged := false
    priority := .normal
    status := .new }

/-- Witness for C5: a singleton record set whose only record has no
score has average sentiment 0. -/
theorem empty_recompute_safe_witness :
    (deriveSummary defaultConfig (recompute [demoRecord])).average_sentiment = 0 :=
  (empty_recompute_safe defaultConfig).2.2.2.2 [demoRecord]
    (by intro r hr; rw [List.mem_singleton] at hr; subst hr; rfl)

end Hosp

namespace Hosp

/-- The propositional sort order on derived topic entries: count
descending, ties by ascending label. -/
def entryLE (a b : TopicEntry) : Prop :=
  b.count < a.count ∨ (a.count = b.count ∧ a.topic ≤ b.topic)

/-- `topicLE` is transitive. -/
theorem topicLE_trans (a b c : String × Nat × Rat) :
    topicLE a b → topicLE b c → topicLE a c := by
  simp only [topicLE, decide_eq_true_eq]
  rintro (h1 | ⟨h1, h1'⟩) (h2 | ⟨h2, h2'⟩)
  · exact Or.inl (lt_trans h2 h1)
  · exact Or.inl (h2 ▸ h1)
  · exact Or.inl (by omega)
  · exact Or.inr ⟨h1.trans h2, le_trans h1' h2'⟩

/-- `topicLE` is total. -/
theorem topicLE_total (a b : String × Nat × Rat) :
    topicLE a b || topicLE b a := by
  simp only [topicLE, Bool.or_eq_true, decide_eq_true_eq]
  rcases lt_trichotomy a.2.1 b.2.1 with h | h | h
  · exact Or.inr (Or.inl h)
  · rcases le_total a.1 b.1 with hs | hs
    · exact Or.inl (Or.inr ⟨h, hs⟩)
    · exact Or.inr (Or.inr ⟨h.symm, hs⟩)
  · exact Or.inl (Or.inl h)

/-- C6: over any record set and configuration, the derived top-topics
list has length at most `top_k_topics`, is sorted by count descending
with ties broken by ascending label, and each entry's average sentiment
is that topic's accumulated sentiment-sum divided by its count. -/
theorem top_topics_spec (cfg : Config) (records : List FeedbackRecord) :
    (topTopics cfg (recompute records)).length ≤ cfg.top_k_topics ∧
    (topTopics cfg (recompute records)).Pairwise entryLE ∧
    (∀ e ∈ topTopics cfg (recompute records),
      ∃ p ∈ (recompute records).topic_acc,
        e.topic = p.1 ∧ e.count = p.2.1 ∧
        e.average_sentiment = p.2.2 / (p.2.1 : Rat)) := by
  refine ⟨?_, ?_, ?_⟩
  · simp only [topTopics, List.length_map, List.length_take]
    exact min_le_left _ _
  · have hs : (((recompute records).topic_acc.mergeSort topicLE)).Pairwise
        (fun a b => topicLE a b) :=
      List.sorted_mergeSort topicLE_trans topicLE_total _
    have ht := List.Pairwise.sublist
      (List.take_sublist cfg.top_k_topics _) hs
    refine List.pairwise_map.mpr (ht.imp ?_)
    intro a b hab
    simpa only [topicLE, decide_eq_true_eq] using hab
  · intro e he
    simp only [topTopics, List.mem_map] at he
    obtain ⟨p, hp, rfl⟩ := he
    exact ⟨p, List.mem_mergeSort.mp (List.mem_of_mem_take hp), rfl, rfl, rfl⟩

/-- Witness for C6 at a concrete record set: the bound on the length of
the derived top-topics list. -/
theorem top_topics_spec_witness :
    (topTopics defaultConfig (recompute [demoRecord])).length ≤
      defaultConfig.top_k_topics :=
  (top_topics_spec defaultConfig [demoRecord]).1

end Hosp

namespace Hosp

/-- Numeric rank of a priority tier, for descending order
(`urgent > high > normal`). -/
def priorityRank : Priority → Nat
  | .normal => 0
  | .high => 1
  | .urgent => 2

/-- The Alert Queue sort order as a boolean relation: priority
descending, then creation time descending. -/
def alertLE (a b : FeedbackRecord) : Bool :=
  decide (priorityRank b.priority < priorityRank a.priority ∨
    (priorityRank a.priority = priorityRank b.priority ∧
      b.created_at ≤ a.created_at))

/-- The same order propositionally. -/
def alertOrder (a b : FeedbackRecord) : Prop :=
  priorityRank b.priority < priorityRank a.priority ∨
    (priorityRank a.priority = priorityRank b.priority ∧
      b.created_at ≤ a.created_at)

/-- The filter step of the Alert Queue View: flagged and not resolved. -/
def alertEligible (r : FeedbackRecord) : Bool :=
  r.flagged && decide (r.status ≠ .resolved)

/-- Modelled from the spec (§4.6): the Alert Queue View — keep flagged
records whose status has not transitioned to `resolved` (so `reviewed`
and `escalated` remain visible), order by priority descending then
creation time descending, and truncate to the requested count. -/
def getFlagged (records : List FeedbackRecord) (limit : Nat) :
    List FeedbackRecord :=
  List.take limit (List.mergeSort (records.filter alertEligible) alertLE)

/-- `alertLE` is transitive. -/
theorem alertLE_trans (a b c : FeedbackRecord) :
    alertLE a b → alertLE b c → alertLE a c := by
  simp only [alertLE, decide_eq_true_eq]
  omega

/-- `alertLE` is total. -/
theorem alertLE_total (a b : FeedbackRecord) :
    alertLE a b || alertLE b a := by
  simp only [alertLE, Bool.or_eq_true, decide_eq_true_eq]
  omega

/-- C7: the Alert Queue View returns at most the requested count, in
priority-descending then creation-time-descending order; every returned
record is flagged and not `resolved` (so `reviewed` and `escalated`
records remain eligible); under the invariant
`flagged = (priority != normal)` no returned record has priority
`normal`; and every flagged, unresolved record of the set is present in
the view before truncation. -/
theorem alert_queue_spec (records : List FeedbackRecord) (limit : Nat) :
    (getFlagged records limit).length ≤ limit ∧
    (getFlagged records limit).Pairwise alertOrder ∧
    (∀ r ∈ getFlagged records limit,
      r.flagged = true ∧ r.status ≠ .resolved) ∧
    ((∀ r ∈ records, r.flagged = decide (r.priority ≠ .normal)) →
      ∀ r ∈ getFlagged records limit, r.priority ≠ .normal) ∧
    (∀ r ∈ records, r.flagged = true → r.status ≠ .resolved →
      r ∈ List.mergeSort (records.filter alertEligible) alertLE) := by
  have hmem : ∀ r ∈ getFlagged records limit,
      r ∈ records ∧ r.flagged = true ∧ r.status ≠ .resolved := by
    intro r hr
    rw [getFlagged] at hr
    have h1 := List.mem_mergeSort.mp (List.mem_of_mem_take hr)
    rw [List.mem_filter, alertEligible, Bool.and_eq_true] at h1
    exact ⟨h1.1, h1.2.1, of_decide_eq_true h1.2.2⟩
  refine ⟨?_, ?_, ?_, ?_, ?_⟩
  · simp only [getFlagged, List.length_take]
    exact min_le_left _ _
  · have hs := List.sorted_mergeSort alertLE_trans alertLE_total
      (records.filter alertEligible)
    have ht := List.Pairwise.sublist (List.take_sublist limit _) hs
    rw [getFlagged]
    exact ht.imp (fun hab => of_decide_eq_true hab)
  · exact fun r hr => (hmem r hr).2
  · intro hinv r hr
    have h2 := (hmem r hr).2.1
    rw [hinv r (hmem r hr).1] at h2
    exact of_decide_eq_true h2
  · intro r hr hf hs
    rw [List.mem_mergeSort, List.mem_filter]
    exact ⟨hr, by simp [alertEligible, hf, hs]⟩

/-- A concrete flagged high-priority record, used by witnesses. -/
def demoFlagged : FeedbackRecord :=
  { text := "urgent issue"
    channel := "web"
    guest_name := none
    location := none
    booking_reference := none
    created_at := 5
    sentiment := some (1/10 : Rat)
    sentiment_label := some .neutral
    topics := []
    flagged := true
    priority := .high
    status := .new }

/-- Witness for C7: in a singleton queue satisfying the flag/priority
invariant, the returned record's priority is not `normal`. -/
theorem alert_queue_spec_witness : demoFlagged.priority ≠ Priority.normal :=
  (alert_queue_spec [demoFlagged] 1).2.2.2.1
    (by intro r hr; rw [List.mem_singleton] at hr; subst hr; rfl)
    demoFlagged (by simp [getFlagged, alertEligible, demoFlagged])

end Hosp

namespace Api

/-- A JavaScript value as it can appear in the filters object passed to
`formatQueryParams` (src/frontend/src/services/api.js). -/
inductive JSValue
  | null
  | undef
  | str (s : String)
  | num (n : Rat)
  | boolean (b : Bool)
  | date (ms : Int)
deriving DecidableEq

/-- The retention test of `formatQueryParams`:
`value !== null && value !== undefined && value !== ''`. Strict
inequality, so `0` and `false` are retained. -/
def isKept : JSValue → Bool
  | .null => false
  | .undef => false
  | .str s => decide (s ≠ "")
  | _ => true

/-- `value instanceof Date ? value.toISOString() : value`. The ISO-8601
rendering of a Date is the external `toISOString` builtin, abstracted as
a function `iso` of the epoch-milliseconds value. -/
def formatValue (iso : Int → String) : JSValue → JSValue
  | .date ms => .str (iso ms)
  | v => v

/-- `formatQueryParams` (src/frontend/src/services/api.js lines 95-110):
iterate over the keys of the filters object, keeping entries whose value
is not null, not undefined and not the empty string, and converting Date
values to their ISO strings. -/
def formatQueryParams (iso : Int → String)
    (filters : List (String × JSValue)) : List (String × JSValue) :=
  filters.filterMap (fun kv =>
    if isKept kv.2 then some (kv.1, formatValue iso kv.2) else none)

/-- Structural characterization: `formatQueryParams` is the filter of
kept entries with each value converted. -/
theorem formatQueryParams_eq (iso : Int → String)
    (filters : List (String × JSValue)) :
    formatQueryParams iso filters =
      (filters.filter (fun kv => isKept kv.2)).map
        (fun kv => (kv.1, formatValue iso kv.2)) := by
  induction filters with
  | nil => rfl
  | cons kv t ih =>
    by_cases h : isKept kv.2 <;>
      simp only [formatQueryParams, List.filterMap_cons, List.filter_cons, h,
        if_pos, if_neg, List.map_cons, Bool.false_eq_true, ite_false,
        ite_true] <;>
      simpa [formatQueryParams] using ih

/-- C9: `formatQueryParams` retains exactly the keys whose values are
not null, not undefined and not the empty string (in particular `0` and
`false` are retained); each retained Date value is replaced by its
ISO-8601 string and every other retained value passes through
unchanged. -/
theorem formatQueryParams_spec (iso : Int → String)
    (filters : List (String × JSValue)) :
    ((formatQueryParams iso filters).map Prod.fst =
      (filters.filter (fun kv => isKept kv.2)).map Prod.fst) ∧
    (∀ k v, (k, v) ∈ filters → isKept v = true →
      (k, formatValue iso v) ∈ formatQueryParams iso filters) ∧
    (∀ k v, (k, v) ∈ formatQueryParams iso filters →
      ∃ w, (k, w) ∈ filters ∧ isKept w = true ∧ v = formatValue iso w) ∧
    isKept (.num 0) = true ∧
    isKept (.boolean false) = true ∧
    isKept .null = false ∧
    isKept .undef = false ∧
    isKept (.str "") = false ∧
    (∀ ms : Int, formatValue iso (.date ms) = .str (iso ms)) ∧
    (∀ v : JSValue, (∀ ms : Int, v ≠ .date ms) → formatValue iso v = v) := by
  refine ⟨?_, ?_, ?_, rfl, rfl, rfl, rfl, by simp [isKept], fun ms => rfl, ?_⟩
  · rw [formatQueryParams_eq]
    simp [List.map_map, Function.comp]
  · intro k v hkv hkept
    rw [formatQueryParams_eq]
    exact List.mem_map.mpr ⟨(k, v), List.mem_filter.mpr ⟨hkv, hkept⟩, rfl⟩
  · intro k v hkv
    rw [formatQueryParams_eq] at hkv
    obtain ⟨⟨k0, w⟩, hw, heq⟩ := List.mem_map.mp hkv
    obtain ⟨hmem, hkept⟩ := List.mem_filter.mp hw
    obtain ⟨rfl, rfl⟩ := Prod.mk.injEq .. ▸ heq
    exact ⟨w, hmem, hkept, rfl⟩
  · intro v hv
    match v with
    | .null | .undef | .str _ | .num _ | .boolean _ => rfl
    | .date ms => exact absurd rfl (hv ms)

/-- A concrete filters object for the C9 witness. -/
def demoFilters : List (String × JSValue) :=
  [("page", .num 0), ("q", .str ""), ("active", .boolean false), ("c", .null)]

/-- A concrete stand-in for the toISOString builtin. -/
def demoIso : Int → String := fun _ => "1970-01-01T00:00:00.000Z"

/-- Witness for C9: the key "page" with value 0 is retained. -/
theorem formatQueryParams_spec_witness :
    ("page", JSValue.num 0) ∈ formatQueryParams demoIso demoFilters :=
  (formatQueryParams_spec demoIso demoFilters).2.1 "page" (JSValue.num 0)
    (by simp [demoFilters]) rfl

/-- The fields of an HTTP error response body that `handleApiError`
inspects: `data?.detail` and `data?.message`. -/
structure RespData where
  detail : Option String
  message : Option String
deriving DecidableEq

/-- `error.response`: HTTP status code plus response body. -/
structure ErrResponse where
  status : Int
  data : RespData
deriving DecidableEq

/-- The axios error value consumed by `handleApiError`: an optional
server response, whether a request was sent, and the error's own
optional message. -/
structure JsError where
  response : Option ErrResponse
  hasRequest : Bool
  message : Option String
deriving DecidableEq

/-- The structured result shape returned by `handleApiError`. -/
structure HandledError where
  message : String
  status : Int
  data : Option RespData
deriving DecidableEq

/-- JS `||` fallback on an optional string: an absent or empty string is
falsy and falls through to the alternative. -/
def orFallback (o : Option String) (alt : String) : String :=
  match o with
  | some s => if s = "" then alt else s
  | none => alt

/-- `handleApiError` (src/frontend/src/services/api.js lines 68-92). -/
def handleApiError (e : JsError) : HandledError :=
  match e.response with
  | some r =>
    { message := orFallback r.data.detail
        (orFallback r.data.message "An error occurred")
      status := r.status
      data := some r.data }
  | none =>
    if e.hasRequest then
      { message := "Network error - please check your connection"
        status := 0
        data := none }
    else
      { message := orFallback e.message "An unexpected error occurred"
        status := 0
        data := none }

/-- A non-empty fallback keeps `orFallback` non-empty. -/
theorem orFallback_ne_empty (o : Option String) (alt : String)
    (halt : alt ≠ "") : orFallback o alt ≠ "" := by
  match o with
  | none => exact halt
  | some s =>
    by_cases hs : s = "" <;> simp [orFallback, hs, halt]

/-- C10: `handleApiError` totally classifies every error into exactly
one of three shapes — server response (status and data from the
response, message falling back through detail, then message, then a
generic text), request without response (status 0, null data, the
network-error text), and everything else (status 0, null data, the
error's own message or a generic fallback) — and always returns a
non-empty message. -/
theorem handleApiError_spec (e : JsError) :
    (handleApiError e).message ≠ "" ∧
    (∀ r, e.response = some r →
      handleApiError e =
        { message := orFallback r.data.detail
            (orFallback r.data.message "An error occurred")
          status := r.status
          data := some r.data }) ∧
    (e.response = none → e.hasRequest = true →
      handleApiError e =
        { message := "Network error - please check your connection"
          status := 0
          data := none }) ∧
    (e.response = none → e.hasRequest = false →
      handleApiError e =
        { message := orFallback e.message "An unexpected error occurred"
          status := 0
          data := none }) ∧
    ((∃ r, e.response = some r) ∨
      (e.response = none ∧ e.hasRequest = true) ∨
      (e.response = none ∧ e.hasRequest = false)) := by
  obtain ⟨resp, req, msg⟩ := e
  cases resp with
  | some r =>
    refine ⟨?_, ?_, ?_, ?_, Or.inl ⟨r, rfl⟩⟩
    · exact orFallback_ne_empty _ _ (orFallback_ne_empty _ _ (by simp))
    · intro r0 hr0
      cases hr0
      rfl
    · intro h
      exact absurd h (by simp)
    · intro h
      exact absurd h (by simp)
  | none =>
    cases req with
    | true =>
      refine ⟨by simp [handleApiError], ?_, fun _ _ => rfl, ?_,
        Or.inr (Or.inl ⟨rfl, rfl⟩)⟩
      · intro r0 hr0
        exact absurd hr0 (by simp)
      · intro _ h
        exact absurd h (by simp)
    | false =>
      refine ⟨?_, ?_, ?_, fun _ _ => rfl, Or.inr (Or.inr ⟨rfl, rfl⟩)⟩
      · simpa [handleApiError] using
          orFallback_ne_empty msg "An unexpected error occurred" (by simp)
      · intro r0 hr0
        exact absurd hr0 (by simp)
      · intro _ h
        exact absurd h (by simp)

/-- A concrete axios error (request sent, no response) for the C10
witness. -/
def demoError : JsError :=
  { response := none, hasRequest := true, message := none }

/-- Witness for C10: the network-error shape at a concrete error. -/
theorem handleApiError_spec_witness :
    handleApiError demoError =
      { message := "Network error - please check your connection"
        status := 0
        data := none } :=
  (handleApiError_spec demoError).2.2.1 rfl rfl

end Api
